import Mathlib

/-
Verification of the benefit-calculation and indexing engine of the
SocialSecurityCalculator repository (src/social_security.py).

The program is embedded shallowly: Python dictionaries become association
lists (`List (ℕ × ℚ)`), Python floats become exact rationals (ℚ), loops
become structural recursion or explicit ranges, and operations that can
raise (dictionary lookup of a missing key, `min`/`max` of an empty
dictionary) return `Option`/`Except` values, with `none`/`error` standing
for the raised exception.
-/

set_option maxRecDepth 100000

namespace SocSec

/-- A Python dict mapping calendar year to a rational amount, rendered as an
association list with unique keys, in insertion order. -/
abbrev YearMap := List (ℕ × ℚ)

/-! ## Reference tables (module data of social_security.py) -/

/-- The `NationalAverageWageIndexSeries` dictionary (lines 48-64 of
social_security.py): year to published national average wage index. -/
def NationalAverageWageIndexSeries : YearMap := [
  (1951, 2799.16), (1952, 2973.32), (1953, 3139.44), (1954, 3155.64), (1955, 3301.44),
  (1956, 3532.36), (1957, 3641.72), (1958, 3673.80), (1959, 3855.80), (1960, 4007.12),
  (1961, 4086.76), (1962, 4291.40), (1963, 4396.64), (1964, 4576.32), (1965, 4658.72),
  (1966, 4938.36), (1967, 5213.44), (1968, 5571.76), (1969, 5893.76), (1970, 6186.24),
  (1971, 6497.08), (1972, 7133.80), (1973, 7580.16), (1974, 8030.76), (1975, 8630.92),
  (1976, 9226.48), (1977, 9779.44), (1978, 10556.03), (1979, 11479.46), (1980, 12513.46),
  (1981, 13773.10), (1982, 14531.34), (1983, 15239.24), (1984, 16135.07), (1985, 16822.51),
  (1986, 17321.82), (1987, 18426.51), (1988, 19334.04), (1989, 20099.55), (1990, 21027.98),
  (1991, 21811.60), (1992, 22935.42), (1993, 23132.67), (1994, 23753.53), (1995, 24705.66),
  (1996, 25913.90), (1997, 27426.00), (1998, 28861.44), (1999, 30469.84), (2000, 32154.82),
  (2001, 32921.92), (2002, 33252.09), (2003, 34064.95), (2004, 35648.55), (2005, 36952.94),
  (2006, 38651.41), (2007, 40405.48), (2008, 41334.97), (2009, 40711.61), (2010, 41673.83),
  (2011, 42979.61), (2012, 44321.67), (2013, 44888.16), (2014, 46481.52), (2015, 48098.63),
  (2016, 48642.15), (2017, 50321.89), (2018, 52145.80), (2019, 54099.99), (2020, 55628.60),
  (2021, 60575.07)]

/-- The Annual % Change column (6th tuple component) of the
`SnP500AnnualData` dictionary (lines 71-167): the only field of that table
the program ever reads, kept in the source insertion order. -/
def SnP500AnnualPChg : YearMap := [
  (2022, -19.44), (2021, 26.89), (2020, 16.26), (2019, 28.88), (2018, -6.24),
  (2017, 19.42), (2016, 9.54), (2015, -0.73), (2014, 11.39), (2013, 29.60),
  (2012, 13.41), (2011, 0.00), (2010, 12.78), (2009, 23.45), (2008, -38.49),
  (2007, 3.53), (2006, 13.62), (2005, 3.00), (2004, 8.99), (2003, 26.38),
  (2002, -23.37), (2001, -13.04), (2000, -10.14), (1999, 19.53), (1998, 26.67),
  (1997, 31.01), (1996, 20.26), (1995, 34.11), (1994, -1.54), (1993, 7.06),
  (1992, 4.46), (1991, 26.31), (1990, -6.56), (1989, 27.25), (1988, 12.40),
  (1987, 2.03), (1986, 14.62), (1985, 26.33), (1984, 1.40), (1983, 17.27),
  (1982, 14.76), (1981, -9.73), (1980, 25.77), (1979, 12.31), (1978, 1.06),
  (1977, -11.50), (1976, 19.15), (1975, 31.55), (1974, -29.72), (1973, -17.37),
  (1972, 15.63), (1971, 10.79), (1970, 0.10), (1969, -11.36), (1968, 7.66),
  (1967, 20.09), (1966, -13.09), (1965, 9.06), (1964, 12.97), (1963, 18.89),
  (1962, -11.81), (1961, 23.13), (1960, -2.97), (1959, 8.48), (1958, 38.06),
  (1957, -14.31), (1956, 2.62), (1955, 26.40), (1954, 45.02), (1953, -6.62),
  (1952, 11.78), (1951, 16.46), (1950, 21.78), (1949, 10.26), (1948, -0.65),
  (1947, 0.00), (1946, -11.87), (1945, 30.72), (1944, 13.80), (1943, 19.45),
  (1942, 12.43), (1941, -17.86), (1940, -15.29), (1939, -5.45), (1938, 25.21),
  (1937, -38.59), (1936, 27.92), (1935, 41.37), (1934, -5.94), (1933, 46.59),
  (1932, -15.15), (1931, -47.07), (1930, -28.48), (1929, -11.91), (1928, 37.88)]

/-- The `OASDITaxRateChanges` dictionary (lines 176-199): year a payroll tax
rate change took effect to the new rate. -/
def OASDITaxRateChanges : YearMap := [
  (1937, 1), (1950, 1.5), (1954, 2.0), (1957, 2.25), (1959, 2.5),
  (1960, 3.0), (1962, 3.125), (1963, 3.625), (1966, 3.85), (1967, 3.9),
  (1968, 3.8), (1969, 4.2), (1971, 4.6), (1973, 4.85), (1974, 4.95),
  (1978, 5.05), (1979, 5.08), (1981, 5.35), (1982, 5.4), (1984, 5.7),
  (1988, 6.06), (1990, 6.2)]

/-! ## Key extrema (Python `min(dict)` / `max(dict)` over keys; result 0
stands in for the ValueError raised on an empty dictionary, and every use
below is guarded by non-emptiness) -/

/-- Smallest key of a year map, `min(d, key=int)` in the source. -/
def minYear (d : YearMap) : ℕ := ((d.map Prod.fst).min?).getD 0

/-- Largest key of a year map, `max(d, key=int)` in the source. -/
def maxYear (d : YearMap) : ℕ := ((d.map Prod.fst).max?).getD 0

/-- `NationalAverageWageIndexSeries_FirstYear` (line 371). -/
def NAWI_FirstYear : ℕ := minYear NationalAverageWageIndexSeries

/-- `NationalAverageWageIndexSeries_LastYear` (line 374). -/
def NAWI_LastYear : ℕ := maxYear NationalAverageWageIndexSeries

/-- `NationalAverageWageIndexSeries[y]`; each use in the program is on a
present key, where the `getD 0` default is never taken. -/
def nawi (y : ℕ) : ℚ := ((NationalAverageWageIndexSeries.lookup y).getD 0)

/-- `Last_AWI_Year` after the indexing loop of lines 380-385: it starts at
the first NAWI year and is overwritten with each loop index, ending at the
last element of `range(first, last)`. -/
def Last_AWI_Year : ℕ :=
  (List.range' NAWI_FirstYear (NAWI_LastYear - NAWI_FirstYear)).foldl
    (fun _ i => i) NAWI_FirstYear

/-! ## Wage indexer (lines 377-399) -/

/-- The `AWI_Factors` dictionary of lines 377-390, as a function from year
to the factor it holds after both loops ran (`none` when neither loop
wrote the year).  The first loop covers `range(first, last)` of the NAWI
series; the pad loop covers `Last_AWI_Year + 1` through the last earnings
year; the two domains are disjoint. -/
def AWI_Factors (lastEarn y : ℕ) : Option ℚ :=
  if NAWI_FirstYear ≤ y ∧ y < NAWI_LastYear then
    some (1 + (nawi NAWI_LastYear - nawi y) / nawi y)
  else if Last_AWI_Year + 1 ≤ y ∧ y ≤ lastEarn then some 1
  else none

/-- One pass of the adjusted-earnings loop of lines 398-399 over a list of
years: `AdjustedEarnings[i] = EarningsRecord[i] * AWI_Factors[i]`, where
either lookup of a missing key raises KeyError, rendered as `none`. -/
def adjustLoop (er : YearMap) (lastEarn : ℕ) : List ℕ → Option YearMap
  | [] => some []
  | i :: rest =>
    match er.lookup i, AWI_Factors lastEarn i with
    | some e, some f => (adjustLoop er lastEarn rest).map (fun t => (i, e * f) :: t)
    | _, _ => none

/-- The `AdjustedEarnings` dictionary of lines 394-399, built over
`range(EarningsRecord_FirstYear, EarningsRecord_LastYear + 1)`; `none` when
the computation raises (empty record, or a lookup of a missing year). -/
def AdjustedEarnings (er : YearMap) : Option YearMap :=
  if er.isEmpty then none
  else adjustLoop er (maxYear er)
    (List.range' (minYear er) (maxYear er + 1 - minYear er))

/-! ## Top-35 selection and AIME (lines 405-412) -/

/-- Insert a value into an ascending list, keeping it ascending. -/
def insertAsc (x : ℚ) : List ℚ → List ℚ
  | [] => [x]
  | y :: ys => if x ≤ y then x :: y :: ys else y :: insertAsc x ys

/-- Python `sorted` on a list of rationals (ascending), rendered as
insertion sort. -/
def sortedAsc (l : List ℚ) : List ℚ := l.foldr insertAsc []

/-- `Top35AdjustedEarnings = sorted(AdjustedEarnings.values())[-35:]`
(line 406): the last `min(35, n)` elements of the ascending sort. -/
def Top35AdjustedEarnings (vals : List ℚ) : List ℚ :=
  (sortedAsc vals).drop (vals.length - 35)

/-- `Top35YearsEarnings` (line 407). -/
def Top35YearsEarnings (vals : List ℚ) : ℚ := (Top35AdjustedEarnings vals).sum

/-- `AIME = Top35YearsEarnings / 420.0` (line 412). -/
def AIME (vals : List ℚ) : ℚ := Top35YearsEarnings vals / 420

/-! ## Benefit formula engine (lines 417-452) -/

/-- Python `round` to an integer: round half to even. -/
def pythonRound (q : ℚ) : ℤ :=
  let f := ⌊q⌋
  if q - f < 1 / 2 then f
  else if 1 / 2 < q - f then f + 1
  else if f % 2 = 0 then f else f + 1

/-- `FirstBendPoint` (line 417). -/
def FirstBendPoint : ℤ := pythonRound (180.0 * nawi NAWI_LastYear / 9779.44)

/-- `SecondBendPoint` (line 418). -/
def SecondBendPoint : ℤ := pythonRound (1085.0 * nawi NAWI_LastYear / 9779.44)

/-- Round down to the nearest 0.10: `(floor(x * 10.0)) / 10.0`
(lines 434, 440, 451). -/
def floor10 (q : ℚ) : ℚ := (⌊q * 10⌋ : ℤ) / 10

/-- `NormalMonthlyBenefit` of lines 421-434: the three-branch bend-point
formula followed by the floor-to-0.10 step. -/
def NormalMonthlyBenefit (aime : ℚ) : ℚ :=
  floor10
    (if aime ≤ (FirstBendPoint : ℚ) then 0.9 * aime
     else if (FirstBendPoint : ℚ) < aime ∧ aime ≤ (SecondBendPoint : ℚ) then
       0.9 * (FirstBendPoint : ℚ) + 0.32 * (aime - (FirstBendPoint : ℚ))
     else
       0.9 * (FirstBendPoint : ℚ) + 0.32 * ((SecondBendPoint : ℚ) - (FirstBendPoint : ℚ))
         + 0.15 * (aime - (SecondBendPoint : ℚ)))

/-- `ReducedMonthlyBenefit = 0.7 * NormalMonthlyBenefit`, floored to 0.10
(lines 439-440). -/
def ReducedMonthlyBenefit (nmb : ℚ) : ℚ := floor10 (0.7 * nmb)

/-- The delayed-benefit loop of lines 446-452: the running annual benefit
is multiplied by 1.08 each iteration (never floored), and each appended
monthly entry is the running value over 12, floored to 0.10. -/
def increasedBenefitLoop : ℕ → ℚ → List ℚ
  | 0, _ => []
  | n + 1, b =>
    let b2 := b * 1.08
    floor10 (b2 / 12) :: increasedBenefitLoop n b2

/-- `IncreasedBenefit`: three iterations starting from
`NormalMonthlyBenefit * 12` (lines 446-452). -/
def IncreasedBenefit (nmb : ℚ) : List ℚ := increasedBenefitLoop 3 (nmb * 12)

/-- The benefit part of `do_the_big_calculation_method` chained end to end:
adjusted earnings, Top-35 selection, AIME, then the three benefit figures;
`none` when any step raises. -/
def doTheBigCalculation (er : YearMap) : Option (ℚ × ℚ × ℚ × List ℚ) :=
  (AdjustedEarnings er).map (fun adj =>
    let aime := AIME (adj.map Prod.snd)
    let nmb := NormalMonthlyBenefit aime
    (aime, nmb, ReducedMonthlyBenefit nmb, IncreasedBenefit nmb))

/-! ## Tax-rate expansion (lines 200-204) -/

/-- The module-level loop of lines 200-204, walking a list of years while
threading `DefaultOASDITaxRate`: each year is written into the expanded
table with `OASDITaxRateChanges.get(year, previous default)`, and the
function returns the expanded table together with the final default. -/
def expandTaxRates : List ℕ → ℚ → YearMap × ℚ
  | [], d => ([], d)
  | y :: ys, d =>
    let d2 := (OASDITaxRateChanges.lookup y).getD d
    let rest := expandTaxRates ys d2
    ((y, d2) :: rest.1, rest.2)

/-- `range(min(OASDITaxRateChanges), 1 + max(OASDITaxRateChanges))`
(line 202). -/
def taxYearList : List ℕ :=
  List.range' (minYear OASDITaxRateChanges)
    (1 + maxYear OASDITaxRateChanges - minYear OASDITaxRateChanges)

/-- `OASDITaxRates` after the expansion loop ran. -/
def OASDITaxRates : YearMap := (expandTaxRates taxYearList 0).1

/-- `DefaultOASDITaxRate` after the expansion loop ran (initially 0, then
overwritten every iteration; it ends at the 1990 rate). -/
def DefaultOASDITaxRate : ℚ := (expandTaxRates taxYearList 0).2

/-- `OASDITaxRates.get(year, DefaultOASDITaxRate)` (line 497): the
effective payroll tax rate the investment comparator applies to a year of
earnings. -/
def effectiveTaxRate (y : ℕ) : ℚ := (OASDITaxRates.lookup y).getD DefaultOASDITaxRate

/-- Written from the wording of the claim, for comparison with
`effectiveTaxRate`: the forward-filled schedule value, that is the most
recent rate change at or before the year, taken as 0 before the schedule
begins. -/
def forwardFilledRate (y : ℕ) : ℚ :=
  OASDITaxRateChanges.foldl (fun acc p => if p.1 ≤ y then p.2 else acc) 0

/-! ## Investment comparator averages (lines 481-514) -/

/-- `allsum` (line 481): sum of every published annual return. -/
def snpAllSum : ℚ := (SnP500AnnualPChg.map Prod.snd).sum

/-- `allavg = allsum / len(SnP500AnnualData)` (line 482). -/
def snpAllAvg : ℚ := snpAllSum / (SnP500AnnualPChg.length : ℚ)

/-- `earnsum` (line 491): sum of the returns of years `y` with
`earnmin < y <= earnmax`, a half-open restriction that leaves out the
first earnings year. -/
def snpEarnSum (er : YearMap) : ℚ :=
  ((SnP500AnnualPChg.filter
      (fun p => decide (minYear er < p.1 ∧ p.1 ≤ maxYear er))).map Prod.snd).sum

/-- `earnavg = earnsum / len(Results['EarningsRecord'])` (line 492): the
divisor is the number of earnings years, not the number of summed
returns. -/
def snpEarnAvg (er : YearMap) : ℚ := snpEarnSum er / (er.length : ℚ)

/-- `lowrate = min(allavg, earnavg) / 2` (line 508). -/
def snpLowRate (er : YearMap) : ℚ := min snpAllAvg (snpEarnAvg er) / 2

/-- `avgrate = max(allavg, earnavg)` (line 512). -/
def snpAvgRate (er : YearMap) : ℚ := max snpAllAvg (snpEarnAvg er)

/-- Written from the wording of the claim, for comparison with
`snpEarnAvg`: the arithmetic mean of the published annual returns of the
years overlapping the earnings record, first through last earnings year
inclusive. -/
def earnPeriodMeanClaim (er : YearMap) : ℚ :=
  let sel := SnP500AnnualPChg.filter
    (fun p => decide (minYear er ≤ p.1 ∧ p.1 ≤ maxYear er))
  (sel.map Prod.snd).sum / (sel.length : ℚ)

/-! ## Statement loading (lines 337-356) -/

/-- The error-handling skeleton of `load_xml_statement`: `parsed` is the
outcome of `et.parse` (with `Except.error e` standing for the `OSError e`
branch), `er` is the module `EarningsRecord`, and `softFail` is the
`Soft_Fail` flag.  The result carries the updated record and the warning
printed to stderr, or the `ValueError` message raised in hard mode. -/
def load_xml_statement (softFail : Bool) (parsed : Except String YearMap)
    (er : YearMap) : Except String (YearMap × Option String) :=
  match parsed with
  | .ok rec => .ok (rec, none)
  | .error e =>
    if er.isEmpty then
      let msg := "No Earnings Record and no XML statement! - " ++ e ++ "\n"
      if softFail then .ok ([(2022, 0)], some msg) else .error msg
    else .ok (er, none)

/-! ## Evaluation lemmas for the concrete tables -/

lemma NAWI_FirstYear_eq : NAWI_FirstYear = 1951 := by decide

lemma NAWI_LastYear_eq : NAWI_LastYear = 2021 := by decide

lemma Last_AWI_Year_eq : Last_AWI_Year = 2020 := by decide

lemma nawi_lastYear_eq : nawi NAWI_LastYear = 60575.07 := rfl

lemma firstBendPoint_eq : FirstBendPoint = 1115 := by
  have h : FirstBendPoint = pythonRound (180.0 * 60575.07 / 9779.44) := rfl
  rw [h]; norm_num [pythonRound]

lemma secondBendPoint_eq : SecondBendPoint = 6721 := by
  have h : SecondBendPoint = pythonRound (1085.0 * 60575.07 / 9779.44) := rfl
  rw [h]; norm_num [pythonRound]

lemma defaultOASDITaxRate_eq : DefaultOASDITaxRate = 6.2 := rfl

lemma OASDITaxRates_keys : OASDITaxRates.map Prod.fst = List.range' 1937 54 := rfl

/-! ## Helper lemmas about lookups, folds and rounding -/

lemma lookup_eq_none_of_not_mem {l : YearMap} {y : ℕ}
    (h : y ∉ l.map Prod.fst) : l.lookup y = none := by
  induction l with
  | nil => rfl
  | cons p t ih =>
    obtain ⟨k, v⟩ := p
    simp only [List.map_cons, List.mem_cons, not_or] at h
    rw [List.lookup_cons, show (y == k) = false from beq_eq_false_iff_ne.mpr h.1]
    exact ih h.2

lemma mem_of_lookup_eq_some {l : YearMap} {y : ℕ} {v : ℚ}
    (h : l.lookup y = some v) : (y, v) ∈ l := by
  induction l with
  | nil => simp [List.lookup] at h
  | cons p t ih =>
    obtain ⟨k, w⟩ := p
    rw [List.lookup_cons] at h
    cases hyk : (y == k) with
    | true =>
      rw [hyk] at h
      obtain rfl : w = v := by simpa using h
      obtain rfl : y = k := by simpa using hyk
      exact List.mem_cons_self _ _
    | false =>
      rw [hyk] at h
      exact List.mem_cons_of_mem _ (ih h)

lemma foldl_update_of_all_le {y : ℕ} {l : YearMap} (h : ∀ p ∈ l, p.1 ≤ y) :
    ∀ init : ℚ, l.foldl (fun acc p => if p.1 ≤ y then p.2 else acc) init
      = l.foldl (fun _ p => p.2) init := by
  induction l with
  | nil => intro _; rfl
  | cons p t ih =>
    intro init
    rw [List.foldl_cons, List.foldl_cons, if_pos (h p (List.mem_cons_self _ _))]
    exact ih (fun q hq => h q (List.mem_cons_of_mem _ hq)) _

lemma effectiveTaxRate_of_gt_1990 {y : ℕ} (h : 1990 < y) : effectiveTaxRate y = 6.2 := by
  have hnone : OASDITaxRates.lookup y = none := by
    apply lookup_eq_none_of_not_mem
    rw [OASDITaxRates_keys]
    intro hy
    rw [List.mem_range'] at hy
    obtain ⟨i, hi, hyi⟩ := hy
    omega
  rw [effectiveTaxRate, hnone]
  rfl

lemma floor10_le (q : ℚ) : floor10 q ≤ q := by
  rw [floor10, div_le_iff₀ (by norm_num : (0 : ℚ) < 10)]
  exact Int.floor_le _

lemma floor10_nonneg {q : ℚ} (h : 0 ≤ q) : 0 ≤ floor10 q := by
  rw [floor10]
  apply div_nonneg _ (by norm_num)
  exact_mod_cast Int.floor_nonneg.mpr (by positivity)

lemma floor10_mono {a b : ℚ} (h : a ≤ b) : floor10 a ≤ floor10 b := by
  rw [floor10, floor10]
  have hf : (⌊a * 10⌋ : ℤ) ≤ ⌊b * 10⌋ :=
    Int.floor_le_floor (by nlinarith)
  exact (div_le_div_iff_of_pos_right (by norm_num : (0 : ℚ) < 10)).mpr (by exact_mod_cast hf)

lemma le_floor10_mul {m : ℤ} (hm : 0 ≤ m) {c : ℚ} (hc : 1 ≤ c) :
    (m : ℚ) / 10 ≤ floor10 ((m : ℚ) / 10 * c) := by
  rw [floor10]
  have h1 : (m : ℚ) / 10 * c * 10 = (m : ℚ) * c := by ring
  rw [h1]
  have h2 : m ≤ ⌊(m : ℚ) * c⌋ := by
    rw [Int.le_floor]
    have hm' : (0 : ℚ) ≤ (m : ℚ) := by exact_mod_cast hm
    nlinarith
  exact (div_le_div_iff_of_pos_right (by norm_num : (0 : ℚ) < 10)).mpr (by exact_mod_cast h2)

lemma increasedBenefit_eq (nmb : ℚ) :
    IncreasedBenefit nmb =
      [floor10 (nmb * 1.08), floor10 (nmb * 1.08 ^ 2), floor10 (nmb * 1.08 ^ 3)] := by
  simp only [IncreasedBenefit, increasedBenefitLoop]
  congr 2
  · ring
  congr 2
  · ring
  congr 2
  · ring

/-! ## Claim C8 -/

/-- C8: if the earnings record is empty and the statement file cannot be
read, the loader fails with a descriptive error string propagated to the
caller; in soft mode it instead substitutes the single placeholder year
2022 with zero earnings, emits a warning, and proceeds. -/
theorem C8_missing_input_handling (e : String) :
    load_xml_statement false (.error e) [] =
      .error ("No Earnings Record and no XML statement! - " ++ e ++ "\n") ∧
    load_xml_statement true (.error e) [] =
      .ok ([(2022, 0)],
        some ("No Earnings Record and no XML statement! - " ++ e ++ "\n")) :=
  ⟨rfl, rfl⟩

/-! ## Claim C10 -/

/-- C10: for every earnings year strictly after 1990, the last year of the
tax-rate change schedule, the effective rate falls back to the final
forward-fill value 6.2 rather than failing or defaulting to zero. -/
theorem C10_rate_after_schedule (y : ℕ) (h : 1990 < y) :
    effectiveTaxRate y = 6.2 :=
  effectiveTaxRate_of_gt_1990 h

/-- Witness for C10 at the concrete year 2000. -/
theorem C10_rate_after_schedule_witness :
    1990 < 2000 ∧ effectiveTaxRate 2000 = 6.2 :=
  ⟨by norm_num, C10_rate_after_schedule 2000 (by norm_num)⟩

/-! ## Claim C4 -/

/-- Counterexample to C4: the year 1936 lies strictly before the first
schedule year 1937, yet its effective rate is 6.2, not 0, because the
fallback default was mutated to the final schedule rate when the
expansion loop ran. -/
theorem C4_counterexample : effectiveTaxRate 1936 = 6.2 ∧ (6.2 : ℚ) ≠ 0 :=
  ⟨rfl, by norm_num⟩

/-- C4 as amended: for every earnings year at or after 1937 the effective
payroll tax rate is the forward-filled value of the tax-rate schedule, but
for every year strictly before 1937 the effective rate is the final
schedule rate 6.2, not 0. -/
theorem C4_amended_forward_fill (y : ℕ) :
    (1937 ≤ y → effectiveTaxRate y = forwardFilledRate y) ∧
    (y < 1937 → effectiveTaxRate y = 6.2) := by
  constructor
  · intro h1
    by_cases h2 : y ≤ 1990
    · interval_cases y <;> rfl
    · push_neg at h2
      rw [effectiveTaxRate_of_gt_1990 h2, forwardFilledRate]
      rw [foldl_update_of_all_le]
      · rfl
      · have hall : ∀ p ∈ OASDITaxRateChanges, p.1 ≤ 1990 := by decide
        exact fun p hp => le_trans (hall p hp) (le_of_lt h2)
  · intro h1
    have hnone : OASDITaxRates.lookup y = none := by
      apply lookup_eq_none_of_not_mem
      rw [OASDITaxRates_keys]
      intro hy
      rw [List.mem_range'] at hy
      obtain ⟨i, hi, hyi⟩ := hy
      omega
    rw [effectiveTaxRate, hnone]
    rfl

/-- Witness for C4 as amended, at the in-schedule year 1960 and the
pre-schedule year 1936. -/
theorem C4_amended_forward_fill_witness :
    effectiveTaxRate 1960 = forwardFilledRate 1960 ∧ effectiveTaxRate 1936 = 6.2 :=
  ⟨(C4_amended_forward_fill 1960).1 (by norm_num),
   (C4_amended_forward_fill 1936).2 (by norm_num)⟩

/-! ## Claim C6 -/

/-- C6: the delayed-claim benefit sequence has exactly 3 entries, and entry
k is the normal monthly benefit compounded by the 1.08 delayed-retirement
multiplier k+1 times and floored to the nearest 0.10 (the annualize-by-12
and divide-by-12 steps cancel). -/
theorem C6_delayed_claim_sequence (nmb : ℚ) :
    (IncreasedBenefit nmb).length = 3 ∧
    IncreasedBenefit nmb =
      [floor10 (nmb * 1.08), floor10 (nmb * 1.08 ^ 2), floor10 (nmb * 1.08 ^ 3)] := by
  refine ⟨?_, increasedBenefit_eq nmb⟩
  rw [increasedBenefit_eq nmb]
  rfl

/-! ## Helper lemmas for the adjusted-earnings loop -/

lemma adjustLoop_eq_none {er : YearMap} {lastEarn : ℕ} {ys : List ℕ} {g : ℕ}
    (hg : g ∈ ys) (hnone : er.lookup g = none) :
    adjustLoop er lastEarn ys = none := by
  induction ys with
  | nil => cases hg
  | cons i rest ih =>
    rcases List.mem_cons.mp hg with rfl | hg2
    · simp only [adjustLoop, hnone]
    · cases h1 : er.lookup i with
      | none => simp only [adjustLoop, h1]
      | some e =>
        cases h2 : AWI_Factors lastEarn i with
        | none => simp only [adjustLoop, h1, h2]
        | some f => simp only [adjustLoop, h1, h2, ih hg2, Option.map_none']

lemma adjustLoop_eq_map {er : YearMap} {lastEarn : ℕ} {ys : List ℕ}
    (h : ∀ y ∈ ys, (er.lookup y).isSome ∧ (AWI_Factors lastEarn y).isSome) :
    adjustLoop er lastEarn ys =
      some (ys.map (fun y =>
        (y, (er.lookup y).getD 0 * (AWI_Factors lastEarn y).getD 0))) := by
  induction ys with
  | nil => rfl
  | cons i rest ih =>
    obtain ⟨h1, h2⟩ := h i (List.mem_cons_self _ _)
    obtain ⟨e, he⟩ := Option.isSome_iff_exists.mp h1
    obtain ⟨f, hf⟩ := Option.isSome_iff_exists.mp h2
    rw [List.map_cons]
    simp only [adjustLoop, he, hf, ih (fun y hy => h y (List.mem_cons_of_mem _ hy)),
      Option.map_some', Option.getD_some]

lemma adjustLoop_entries {er : YearMap} {lastEarn : ℕ} {ys : List ℕ} {adj : YearMap}
    (h : adjustLoop er lastEarn ys = some adj) :
    ∀ p ∈ adj, ∃ e f, er.lookup p.1 = some e ∧
      AWI_Factors lastEarn p.1 = some f ∧ p.2 = e * f := by
  induction ys generalizing adj with
  | nil =>
    obtain rfl : adj = [] := by simpa [adjustLoop] using h.symm
    intro p hp
    cases hp
  | cons i rest ih =>
    cases h1 : er.lookup i with
    | none => rw [adjustLoop, h1] at h; cases h
    | some e =>
      cases h2 : AWI_Factors lastEarn i with
      | none => rw [adjustLoop, h1, h2] at h; cases h
      | some f =>
        have h' : Option.map (fun t => (i, e * f) :: t) (adjustLoop er lastEarn rest)
            = some adj := by
          rw [adjustLoop, h1, h2] at h
          exact h
        cases h3 : adjustLoop er lastEarn rest with
        | none => rw [h3] at h'; cases h'
        | some t =>
          rw [h3, Option.map_some'] at h'
          obtain rfl : adj = (i, e * f) :: t := by simpa using h'.symm
          intro p hp
          rcases List.mem_cons.mp hp with rfl | hp2
          · exact ⟨e, f, h1, h2, rfl⟩
          · exact ih h3 p hp2

lemma isEmpty_eq_false_of_ne_nil {er : YearMap} (h : er ≠ []) :
    er.isEmpty = false := by
  cases er with
  | nil => exact absurd rfl h
  | cons a t => rfl

/-! ## Claim C1 -/

/-- Counterexample to C1: the non-empty record with years 2000 and 2002,
both inside the wage-index coverage but with 2001 missing, makes the core
computation fail (the KeyError of `EarningsRecord[2001]` in the
adjusted-earnings loop), rather than complete with 2001 contributing 0. -/
theorem C1_counterexample :
    doTheBigCalculation [(2000, 20000), (2002, 21000)] = none := rfl

/-- C1 as amended: for every non-empty earnings record with a gap year
strictly between its first and last years, the core computation fails at
the adjusted-earnings pass (KeyError on the gap year) instead of treating
the missing year as 0; it is total only on contiguous records. -/
theorem C1_amended_gap_fails (er : YearMap) (g : ℕ) (h0 : er ≠ [])
    (h1 : minYear er < g) (h2 : g < maxYear er) (h3 : er.lookup g = none) :
    doTheBigCalculation er = none := by
  have hAdj : AdjustedEarnings er = none := by
    rw [AdjustedEarnings, isEmpty_eq_false_of_ne_nil h0]
    simp only [Bool.false_eq_true, if_false]
    apply adjustLoop_eq_none _ h3
    rw [List.mem_range']
    exact ⟨g - minYear er, by omega, by omega⟩
  rw [doTheBigCalculation, hAdj]
  rfl

/-- Witness for C1 as amended, at the record {2000: 20000, 2002: 21000}
with gap year 2001. -/
theorem C1_amended_gap_fails_witness :
    List.lookup 2001 [(2000, (20000 : ℚ)), (2002, 21000)] = none ∧
    doTheBigCalculation [(2000, 20000), (2002, 21000)] = none :=
  ⟨rfl, C1_amended_gap_fails [(2000, 20000), (2002, 21000)] 2001
    (by simp) (by decide) (by decide) rfl⟩

/-! ## Claim C2 -/

/-- C2: for a non-empty earnings record with contiguous years inside the
wage-index coverage, each year of `[NAWI first year, NAWI last year)` gets
the factor `1 + (index(last) - index(y)) / index(y)`, each year from the
last indexed year through the last earnings year gets the pad factor 1.0,
and the adjusted earnings of every year of the span is the raw earnings
times that year's factor. -/
theorem C2_wage_indexer (er : YearMap) (h0 : er ≠ [])
    (hcov1 : NAWI_FirstYear ≤ minYear er) (_hcov2 : maxYear er ≤ NAWI_LastYear)
    (hcontig : ∀ y, minYear er ≤ y → y ≤ maxYear er → (er.lookup y).isSome) :
    (∀ y, NAWI_FirstYear ≤ y → y < NAWI_LastYear →
      AWI_Factors (maxYear er) y =
        some (1 + (nawi NAWI_LastYear - nawi y) / nawi y)) ∧
    (∀ y, NAWI_LastYear ≤ y → y ≤ maxYear er →
      AWI_Factors (maxYear er) y = some 1) ∧
    AdjustedEarnings er = some
      ((List.range' (minYear er) (maxYear er + 1 - minYear er)).map
        (fun y => (y, (er.lookup y).getD 0 *
          (AWI_Factors (maxYear er) y).getD 0))) := by
  refine ⟨?_, ?_, ?_⟩
  · intro y hy1 hy2
    rw [AWI_Factors, if_pos ⟨hy1, hy2⟩]
  · intro y hy1 hy2
    have hn : ¬(NAWI_FirstYear ≤ y ∧ y < NAWI_LastYear) := by
      rintro ⟨-, h⟩
      omega
    have hp : Last_AWI_Year + 1 ≤ y ∧ y ≤ maxYear er := by
      refine ⟨?_, hy2⟩
      rw [Last_AWI_Year_eq]
      rw [NAWI_LastYear_eq] at hy1
      omega
    rw [AWI_Factors, if_neg hn, if_pos hp]
  · rw [AdjustedEarnings, isEmpty_eq_false_of_ne_nil h0]
    simp only [Bool.false_eq_true, if_false]
    apply adjustLoop_eq_map
    intro y hy
    rw [List.mem_range'] at hy
    obtain ⟨i, hi, rfl⟩ := hy
    have hyl : minYear er ≤ minYear er + 1 * i := by omega
    have hyu : minYear er + 1 * i ≤ maxYear er := by omega
    refine ⟨hcontig _ hyl hyu, ?_⟩
    by_cases hy2 : minYear er + 1 * i < NAWI_LastYear
    · rw [AWI_Factors, if_pos ⟨le_trans hcov1 hyl, hy2⟩]
      rfl
    · push_neg at hy2
      have hn : ¬(NAWI_FirstYear ≤ minYear er + 1 * i ∧
          minYear er + 1 * i < NAWI_LastYear) := by
        rintro ⟨-, h⟩
        omega
      have hp : Last_AWI_Year + 1 ≤ minYear er + 1 * i ∧
          minYear er + 1 * i ≤ maxYear er := by
        refine ⟨?_, hyu⟩
        rw [Last_AWI_Year_eq]
        rw [NAWI_LastYear_eq] at hy2
        omega
      rw [AWI_Factors, if_neg hn, if_pos hp]
      rfl

/-- Witness for C2 at the record {2000: 20000, 2001: 21000}: the
adjusted-earnings conclusion instantiated there. -/
theorem C2_wage_indexer_witness :
    AdjustedEarnings [(2000, 20000), (2001, 21000)] = some
      ((List.range' (minYear [(2000, 20000), (2001, 21000)])
          (maxYear [(2000, 20000), (2001, 21000)] + 1 -
            minYear [(2000, 20000), (2001, 21000)])).map
        (fun y => (y, (List.lookup y [(2000, (20000 : ℚ)), (2001, 21000)]).getD 0 *
          (AWI_Factors (maxYear [(2000, 20000), (2001, 21000)]) y).getD 0))) :=
  (C2_wage_indexer [(2000, 20000), (2001, 21000)] (by simp) (by decide) (by decide)
    (by
      intro y hy1 hy2
      have e1 : minYear [(2000, (20000 : ℚ)), (2001, 21000)] = 2000 := by decide
      have e2 : maxYear [(2000, (20000 : ℚ)), (2001, 21000)] = 2001 := by decide
      rw [e1] at hy1
      rw [e2] at hy2
      interval_cases y <;> rfl)).2.2
/-! ## Helper lemmas about the wage-index table -/

lemma nawi_lookup_isSome {y : ℕ} (h1 : 1951 ≤ y) (h2 : y < 2021) :
    (NationalAverageWageIndexSeries.lookup y).isSome := by
  have hall : (List.range' 1951 70).all
      (fun y => (NationalAverageWageIndexSeries.lookup y).isSome) = true := by decide
  have hy : y ∈ List.range' 1951 70 :=
    List.mem_range'.mpr ⟨y - 1951, by omega, by omega⟩
  exact List.all_eq_true.mp hall y hy

lemma nawi_mem_bounds : ∀ p ∈ NationalAverageWageIndexSeries,
    0 < p.2 ∧ p.2 ≤ 60575.07 :=
  of_decide_eq_true (by with_unfolding_all rfl)

lemma AWI_Factors_ge_one {lastEarn y : ℕ} {f : ℚ}
    (h : AWI_Factors lastEarn y = some f) : 1 ≤ f := by
  rw [AWI_Factors] at h
  split_ifs at h with h1 h2
  · obtain ⟨hy1, hy2⟩ := h1
    rw [NAWI_FirstYear_eq] at hy1
    rw [NAWI_LastYear_eq] at hy2
    obtain ⟨v, hv⟩ := Option.isSome_iff_exists.mp (nawi_lookup_isSome hy1 hy2)
    have hb := nawi_mem_bounds _ (mem_of_lookup_eq_some hv)
    have hval : nawi y = v := by rw [nawi, hv]; rfl
    obtain rfl : 1 + (nawi NAWI_LastYear - nawi y) / nawi y = f := Option.some_inj.mp h
    rw [nawi_lastYear_eq, hval]
    have hnn : 0 ≤ (60575.07 - v) / v := by
      apply div_nonneg _ (le_of_lt hb.1)
      linarith [hb.2]
    linarith
  · obtain rfl : (1 : ℚ) = f := Option.some_inj.mp h
    exact le_refl 1

/-- Concrete evaluation of the adjusted earnings of the two-year record
{2000: 20000, 2001: 21000} under the real wage-index table. -/
lemma adjustedEarnings_example :
    AdjustedEarnings [(2000, 20000), (2001, 21000)] = some
      [(2000, 20000 * (1 + (60575.07 - 32154.82) / 32154.82)),
       (2001, 21000 * (1 + (60575.07 - 32921.92) / 32921.92))] := rfl

lemma adjustLoop_of_adjustedEarnings {er adj : YearMap}
    (h : AdjustedEarnings er = some adj) :
    adjustLoop er (maxYear er)
      (List.range' (minYear er) (maxYear er + 1 - minYear er)) = some adj := by
  cases er with
  | nil => simp [AdjustedEarnings] at h
  | cons p t => exact h

/-! ## Claim C7 -/

/-- Counterexample to C7: 2008 is an earlier year than 2009, yet its
adjustment factor is strictly smaller, because the published wage index
itself dipped in 2009; the factor sequence is therefore not non-decreasing
as the year decreases. -/
theorem C7_counterexample :
    AWI_Factors 2021 2008 = some (1 + (60575.07 - 41334.97) / 41334.97) ∧
    AWI_Factors 2021 2009 = some (1 + (60575.07 - 40711.61) / 40711.61) ∧
    (1 + (60575.07 - 41334.97) / 41334.97 : ℚ) <
      1 + (60575.07 - 40711.61) / 40711.61 :=
  ⟨rfl, rfl, by norm_num⟩

/-- C7 as amended: every adjustment factor the indexer writes is at least
1.0, and for a record with non-negative earnings every adjusted-earnings
entry is at least the raw earnings of its year; the monotonicity clause of
the claim is dropped (see the counterexample). -/
theorem C7_amended_factor_bounds :
    (∀ lastEarn y : ℕ, ∀ f : ℚ, AWI_Factors lastEarn y = some f → 1 ≤ f) ∧
    (∀ er adj : YearMap, ∀ y : ℕ, ∀ e a : ℚ, (∀ p ∈ er, 0 ≤ p.2) →
      AdjustedEarnings er = some adj →
      er.lookup y = some e → adj.lookup y = some a → e ≤ a) := by
  constructor
  · intro lastEarn y f h
    exact AWI_Factors_ge_one h
  · intro er adj y e a hnn hadj hle hla
    obtain ⟨e', f, he', hf, hprod⟩ :=
      adjustLoop_entries (adjustLoop_of_adjustedEarnings hadj) (y, a)
        (mem_of_lookup_eq_some hla)
    have hee : e' = e := Option.some_inj.mp (he'.symm.trans hle)
    rw [hee] at hprod
    have hf1 : 1 ≤ f := AWI_Factors_ge_one hf
    have he0 : 0 ≤ e := hnn (y, e) (mem_of_lookup_eq_some hle)
    have hgoal : a = e * f := hprod
    rw [hgoal]
    exact le_mul_of_one_le_right he0 hf1

/-- Witness for C7 as amended: the 2000 factor is at least 1, and the
adjusted 2000 earnings of the record {2000: 20000, 2001: 21000} are at
least the raw 20000. -/
theorem C7_amended_factor_bounds_witness :
    (1 : ℚ) ≤ 1 + (60575.07 - 32154.82) / 32154.82 ∧
    (20000 : ℚ) ≤ 20000 * (1 + (60575.07 - 32154.82) / 32154.82) := by
  constructor
  · exact C7_amended_factor_bounds.1 2021 2000 _ rfl
  · refine C7_amended_factor_bounds.2 [(2000, 20000), (2001, 21000)] _ 2000 20000 _
      ?_ adjustedEarnings_example rfl rfl
    exact of_decide_eq_true (by with_unfolding_all rfl)
/-! ## Helper lemmas for the benefit formula -/

lemma firstBendPoint_cast : ((FirstBendPoint : ℤ) : ℚ) = 1115 := by
  rw [firstBendPoint_eq]
  norm_num

lemma secondBendPoint_cast : ((SecondBendPoint : ℤ) : ℚ) = 6721 := by
  rw [secondBendPoint_eq]
  norm_num

lemma normalMonthlyBenefit_rep (aime : ℚ) :
    ∃ m : ℤ, NormalMonthlyBenefit aime = (m : ℚ) / 10 := ⟨_, rfl⟩

lemma normalMonthlyBenefit_nonneg {aime : ℚ} (h : 0 ≤ aime) :
    0 ≤ NormalMonthlyBenefit aime := by
  rw [NormalMonthlyBenefit, firstBendPoint_cast, secondBendPoint_cast]
  apply floor10_nonneg
  split_ifs with h1 h2
  · nlinarith
  · obtain ⟨h2a, h2b⟩ := h2
    nlinarith
  · push_neg at h1 h2
    have h3 := h2 h1
    nlinarith

/-! ## Claim C3 -/

/-- C3: the bend points are round(180 x latestIndex / 9779.44) = 1115 and
round(1085 x latestIndex / 9779.44) = 6721 for the latest index value
60575.07, and for every AIME the normal monthly benefit is the
three-branch piecewise formula truncated downward to the nearest 0.10. -/
theorem C3_bend_points_and_formula :
    FirstBendPoint = pythonRound (180.0 * nawi NAWI_LastYear / 9779.44) ∧
    SecondBendPoint = pythonRound (1085.0 * nawi NAWI_LastYear / 9779.44) ∧
    FirstBendPoint = 1115 ∧ SecondBendPoint = 6721 ∧
    ∀ aime : ℚ,
      (aime ≤ 1115 → NormalMonthlyBenefit aime = floor10 (0.9 * aime)) ∧
      (1115 < aime → aime ≤ 6721 →
        NormalMonthlyBenefit aime = floor10 (0.9 * 1115 + 0.32 * (aime - 1115))) ∧
      (6721 < aime → NormalMonthlyBenefit aime =
        floor10 (0.9 * 1115 + 0.32 * ((6721 : ℚ) - 1115) + 0.15 * (aime - 6721))) := by
  refine ⟨rfl, rfl, firstBendPoint_eq, secondBendPoint_eq, ?_⟩
  intro aime
  rw [NormalMonthlyBenefit, firstBendPoint_cast, secondBendPoint_cast]
  refine ⟨?_, ?_, ?_⟩
  · intro h
    rw [if_pos h]
  · intro h1 h2
    rw [if_neg (not_le.mpr h1), if_pos ⟨h1, h2⟩]
  · intro h
    rw [if_neg, if_neg]
    · rintro ⟨-, hle⟩
      linarith
    · simp only [not_le]
      linarith

/-- Witness for C3 at AIME = 1000, which falls in the first branch. -/
theorem C3_bend_points_and_formula_witness :
    (1000 : ℚ) ≤ 1115 ∧ NormalMonthlyBenefit 1000 = floor10 (0.9 * 1000) :=
  ⟨by norm_num, (C3_bend_points_and_formula.2.2.2.2 1000).1 (by norm_num)⟩

/-! ## Claim C9 -/

/-- C9: for a nonnegative AIME the benefit amounts form a non-decreasing
chain: reduced benefit, normal benefit, then the three delayed-claim
benefits in order. -/
theorem C9_benefit_chain (aime : ℚ) (h : 0 ≤ aime) :
    ReducedMonthlyBenefit (NormalMonthlyBenefit aime) ≤ NormalMonthlyBenefit aime ∧
    NormalMonthlyBenefit aime ≤ (IncreasedBenefit (NormalMonthlyBenefit aime)).getD 0 0 ∧
    (IncreasedBenefit (NormalMonthlyBenefit aime)).getD 0 0 ≤
      (IncreasedBenefit (NormalMonthlyBenefit aime)).getD 1 0 ∧
    (IncreasedBenefit (NormalMonthlyBenefit aime)).getD 1 0 ≤
      (IncreasedBenefit (NormalMonthlyBenefit aime)).getD 2 0 := by
  have hN0 : 0 ≤ NormalMonthlyBenefit aime := normalMonthlyBenefit_nonneg h
  obtain ⟨m, hm⟩ := normalMonthlyBenefit_rep aime
  have hm0 : (0 : ℤ) ≤ m := by
    have h10 : (0 : ℚ) ≤ (m : ℚ) := by
      have hx : (m : ℚ) = 10 * ((m : ℚ) / 10) := by ring
      rw [hx, ← hm]
      exact mul_nonneg (by norm_num) hN0
    exact_mod_cast h10
  rw [increasedBenefit_eq]
  simp only [List.getD_cons_zero, List.getD_cons_succ]
  refine ⟨?_, ?_, ?_, ?_⟩
  · calc ReducedMonthlyBenefit (NormalMonthlyBenefit aime)
        ≤ 0.7 * NormalMonthlyBenefit aime := floor10_le _
      _ ≤ NormalMonthlyBenefit aime := by nlinarith
  · rw [hm]
    exact le_floor10_mul hm0 (by norm_num)
  · apply floor10_mono
    nlinarith
  · apply floor10_mono
    nlinarith

/-- Witness for C9 at AIME = 1000. -/
theorem C9_benefit_chain_witness :
    (0 : ℚ) ≤ 1000 ∧
    (ReducedMonthlyBenefit (NormalMonthlyBenefit 1000) ≤ NormalMonthlyBenefit 1000 ∧
     NormalMonthlyBenefit 1000 ≤ (IncreasedBenefit (NormalMonthlyBenefit 1000)).getD 0 0 ∧
     (IncreasedBenefit (NormalMonthlyBenefit 1000)).getD 0 0 ≤
       (IncreasedBenefit (NormalMonthlyBenefit 1000)).getD 1 0 ∧
     (IncreasedBenefit (NormalMonthlyBenefit 1000)).getD 1 0 ≤
       (IncreasedBenefit (NormalMonthlyBenefit 1000)).getD 2 0) :=
  ⟨by norm_num, C9_benefit_chain 1000 (by norm_num)⟩

/-! ## Claim C5 -/

/-- Counterexample to C5: for the record {2000: 20000, 2001: 21000} the
program's earnings-period figure is (-13.04)/2 = -6.52, because the strict
lower bound excludes the 2000 return and the divisor is the number of
earnings years, while the arithmetic mean of the returns of the
overlapping years 2000 and 2001 is (-10.14 + -13.04)/2 = -11.59. -/
theorem C5_counterexample :
    snpEarnAvg [(2000, 20000), (2001, 21000)] = -6.52 ∧
    earnPeriodMeanClaim [(2000, 20000), (2001, 21000)] = -11.59 ∧
    snpEarnAvg [(2000, 20000), (2001, 21000)] ≠
      earnPeriodMeanClaim [(2000, 20000), (2001, 21000)] := by
  have h1 : snpEarnAvg [(2000, 20000), (2001, 21000)] = -6.52 := by
    have hf : SnP500AnnualPChg.filter
        (fun p => decide (minYear [(2000, 20000), (2001, 21000)] < p.1 ∧
          p.1 ≤ maxYear [(2000, 20000), (2001, 21000)])) = [(2001, -13.04)] := rfl
    simp only [snpEarnAvg, snpEarnSum, hf]
    norm_num
  have h2 : earnPeriodMeanClaim [(2000, 20000), (2001, 21000)] = -11.59 := by
    have hf : SnP500AnnualPChg.filter
        (fun p => decide (minYear [(2000, 20000), (2001, 21000)] ≤ p.1 ∧
          p.1 ≤ maxYear [(2000, 20000), (2001, 21000)])) =
        [(2001, -13.04), (2000, -10.14)] := rfl
    simp only [earnPeriodMeanClaim, hf]
    norm_num
  refine ⟨h1, h2, ?_⟩
  rw [h1, h2]
  norm_num

/-- C5 as amended: the low and average scenario rates are
min(baseline, earnings-period figure)/2 and max(baseline, earnings-period
figure), with the baseline the arithmetic mean of all 95 published annual
returns, but the earnings-period figure is the sum of the returns of the
years strictly after the first earnings year through the last earnings
year, divided by the number of earnings years, not the arithmetic mean of
the overlapping returns. -/
theorem C5_amended_scenario_rates (er : YearMap) (_h : er ≠ []) :
    SnP500AnnualPChg.length = 95 ∧
    snpAllAvg = snpAllSum / 95 ∧
    snpLowRate er = min snpAllAvg (snpEarnAvg er) / 2 ∧
    snpAvgRate er = max snpAllAvg (snpEarnAvg er) ∧
    snpEarnAvg er = ((SnP500AnnualPChg.filter
      (fun p => decide (minYear er < p.1 ∧ p.1 ≤ maxYear er))).map Prod.snd).sum
        / (er.length : ℚ) := by
  refine ⟨rfl, ?_, rfl, rfl, rfl⟩
  have hl : SnP500AnnualPChg.length = 95 := rfl
  rw [snpAllAvg, hl]
  norm_num

/-- Witness for C5 as amended at the record {2000: 20000, 2001: 21000}. -/
theorem C5_amended_scenario_rates_witness :
    snpLowRate [(2000, 20000), (2001, 21000)] =
      min snpAllAvg (snpEarnAvg [(2000, 20000), (2001, 21000)]) / 2 ∧
    snpAvgRate [(2000, 20000), (2001, 21000)] =
      max snpAllAvg (snpEarnAvg [(2000, 20000), (2001, 21000)]) :=
  ⟨(C5_amended_scenario_rates [(2000, 20000), (2001, 21000)] (by simp)).2.2.1,
   (C5_amended_scenario_rates [(2000, 20000), (2001, 21000)] (by simp)).2.2.2.1⟩

end SocSec
